import Mathlib

/-!
Verification of the cave-shooter simulation core (`app.py`).

The Python program is shallowly embedded:
* continuous pixel coordinates (Python `float`) are modelled as `ℚ`;
* the tile grid (`List[List[int]]`, row-major, indexed `map[tile_y][tile_x]`) is
  modelled as a total function `Nat → Nat → Nat` returning the tile value;
* the float math library calls `math.hypot(dx, dy)`, `math.cos(math.atan2(dy, dx))`
  and `math.sin(math.atan2(dy, dx))` are abstracted as the fields of a `MathLib`
  record threaded through the functions that call them;
* the random seeding of the map (`random.random() < p` per cell) is abstracted as
  the initial grid passed to `generate_map`.
-/

namespace GameConfig

def WINDOW_WIDTH : ℕ := 160

def WINDOW_HEIGHT : ℕ := 120

def MAP_WIDTH : ℕ := 256

def MAP_HEIGHT : ℕ := 256

def TILE_SIZE : ℕ := 8

def PLAYER_SPEED : ℚ := 1.2

def BULLET_SPEED : ℚ := 3

def RELOAD_TIME : ℤ := 10

def SHIELD_DURATION : ℤ := 60

def SHIELD_COOLDOWN : ℤ := 60

def SMOOTHING_ITERATIONS : ℕ := 2

def SMOOTHING_THRESHOLD : ℕ := 4

def FLOOR_TILE : ℕ := 0

def WALL_TILE : ℕ := 1

def SAFE_ZONE_RADIUS : ℕ := 10

def BULLET_COLLISION_RADIUS : ℚ := 4

/-- `ENEMY_TYPES["CHASER"]` -/
def CHASER : ℕ := 0

/-- `ENEMY_TYPES["SHOOTER"]` -/
def SHOOTER : ℕ := 1

/-- `ENEMY_TYPES["BOMBER"]` -/
def BOMBER : ℕ := 2

end GameConfig

/-- The tile grid, `map[y][x]`, as a total function on tile coordinates. -/
abbrev Grid := ℕ → ℕ → ℕ

/-- Abstraction of the float math library calls made by the program:
`hypot dx dy` stands for `math.hypot(dx, dy)`, and `dirCos dy dx` and
`dirSin dy dx` stand for `math.cos(math.atan2(dy, dx))` and
`math.sin(math.atan2(dy, dx))`. -/
structure MathLib where
  hypot : ℚ → ℚ → ℚ
  dirCos : ℚ → ℚ → ℚ
  dirSin : ℚ → ℚ → ℚ

/-- The border-forcing loops of `Game.generate_map` (lines 202-207): every cell of
row `0`, row `MAP_HEIGHT-1`, column `0` and column `MAP_WIDTH-1` is set to
`WALL_TILE`. -/
def force_borders (g : Grid) : Grid := fun y x =>
  if y = 0 ∨ y = GameConfig.MAP_HEIGHT - 1 ∨ x = 0 ∨ x = GameConfig.MAP_WIDTH - 1 then
    GameConfig.WALL_TILE
  else g y x

/-- The 8-neighbour wall count of `Game.generate_map` (lines 212-218), evaluated at
an interior cell `1 ≤ y`, `1 ≤ x`: offsets `j, i ∈ {-1, 0, 1}` excluding `(0, 0)`,
here written `y - 1 + j`, `x - 1 + i` with `j, i ∈ {0, 1, 2}`. -/
def wall_neighbor_count (g : Grid) (y x : ℕ) : ℕ :=
  ((List.range 3).map (fun j =>
    ((List.range 3).filter (fun i =>
      ¬(j = 1 ∧ i = 1) ∧ g (y - 1 + j) (x - 1 + i) = GameConfig.WALL_TILE)).length)).sum

/-- One smoothing pass of `Game.generate_map` (lines 208-223).  The Python code
creates `new_map` pre-filled with `FLOOR_TILE` and then writes only the interior
cells `y ∈ range(1, MAP_HEIGHT-1)`, `x ∈ range(1, MAP_WIDTH-1)`; every other cell
of the fresh grid keeps its initial `FLOOR_TILE` value. -/
def smooth_step (g : Grid) : Grid := fun y x =>
  if 1 ≤ y ∧ y < GameConfig.MAP_HEIGHT - 1 ∧ 1 ≤ x ∧ x < GameConfig.MAP_WIDTH - 1 then
    if GameConfig.SMOOTHING_THRESHOLD ≤ wall_neighbor_count g y x then
      GameConfig.WALL_TILE
    else GameConfig.FLOOR_TILE
  else GameConfig.FLOOR_TILE

/-- `Game.generate_map` (lines 196-224), with the random seeding abstracted as the
`seed` grid: force the borders to wall, then apply `SMOOTHING_ITERATIONS`
smoothing passes. -/
def generate_map (seed : Grid) : Grid :=
  Nat.iterate smooth_step GameConfig.SMOOTHING_ITERATIONS (force_borders seed)

/-- `Game.clear_safe_zone` (lines 226-231): carve every tile of the inclusive
`(2·radius+1)`-square around the tile containing `(center_x, center_y)`, clipped
to the grid bounds, to `FLOOR_TILE`.  The Python loop bounds
`range(max(0, tc - radius), min(BOUND, tc + radius + 1))` become the condition
below (the `max 0` clip is automatic for a `ℕ` index). -/
def clear_safe_zone (center_x center_y : ℚ) (radius : ℕ) (g : Grid) : Grid := fun y x =>
  let tile_center_x : ℤ := Int.floor (center_x / (GameConfig.TILE_SIZE : ℚ))
  let tile_center_y : ℤ := Int.floor (center_y / (GameConfig.TILE_SIZE : ℚ))
  if (tile_center_y - radius ≤ (y : ℤ) ∧ (y : ℤ) < tile_center_y + radius + 1 ∧
        y < GameConfig.MAP_HEIGHT) ∧
     (tile_center_x - radius ≤ (x : ℤ) ∧ (x : ℤ) < tile_center_x + radius + 1 ∧
        x < GameConfig.MAP_WIDTH) then
    GameConfig.FLOOR_TILE
  else g y x

/-- `Game.is_walkable` (lines 264-270): out-of-range pixel coordinates are not
walkable; otherwise the enclosing tile (`int(x // TILE_SIZE)`) must be floor. -/
def is_walkable (g : Grid) (x y : ℚ) : Bool :=
  if x < 0 ∨ (GameConfig.MAP_WIDTH * GameConfig.TILE_SIZE : ℚ) ≤ x ∨
     y < 0 ∨ (GameConfig.MAP_HEIGHT * GameConfig.TILE_SIZE : ℚ) ≤ y then
    false
  else
    let tile_x : ℕ := (Int.floor (x / (GameConfig.TILE_SIZE : ℚ))).toNat
    let tile_y : ℕ := (Int.floor (y / (GameConfig.TILE_SIZE : ℚ))).toNat
    g tile_y tile_x == GameConfig.FLOOR_TILE

/-- `Entity.move_with_collision` (lines 68-75): try the x-displacement, commit it
if the destination is walkable, then try the y-displacement from the (possibly
updated) x. -/
def move_with_collision (x y dx dy : ℚ) (walkable : ℚ → ℚ → Bool) : ℚ × ℚ :=
  let new_x := x + dx
  let x1 := if walkable new_x y = true then new_x else x
  let new_y := y + dy
  let y1 := if walkable x1 new_y = true then new_y else y
  (x1, y1)

/-- `Player` state (lines 77-85).  The purely cosmetic `shield_angle` field
(float arithmetic on `math.pi`, irrelevant to the simulation) is not modelled. -/
structure Player where
  x : ℚ
  y : ℚ
  speed : ℚ
  hp : ℤ
  shield_active : Bool
  shield_timer : ℤ
  shield_cooldown : ℤ
  reload_timer : ℤ
  deriving DecidableEq

/-- `Player.__init__` (lines 78-85). -/
def Player.init (x y : ℚ) : Player :=
  { x := x, y := y, speed := GameConfig.PLAYER_SPEED, hp := 3,
    shield_active := false, shield_timer := 0, shield_cooldown := 0, reload_timer := 0 }

/-- `Player.activate_shield` (lines 116-118). -/
def Player.activate_shield (p : Player) : Player :=
  { p with shield_active := true, shield_timer := GameConfig.SHIELD_DURATION }

/-- `Player.can_shoot` (lines 120-121). -/
def Player.can_shoot (p : Player) : Bool :=
  p.reload_timer == 0

/-- `Player.shoot` (lines 123-124). -/
def Player.shoot (p : Player) : Player :=
  { p with reload_timer := GameConfig.RELOAD_TIME }

/-- The directional keys and mouse buttons sampled by `Player.update` and
`Game.update`: `keyZ/S/Q/D` are `pyxel.btn(KEY_Z/S/Q/D)`, `shieldBtn` is
`pyxel.btnp(MOUSE_BUTTON_RIGHT)`, `fire` is `pyxel.btnp(MOUSE_BUTTON_LEFT)`,
and `mouseX/mouseY` are `pyxel.mouse_x/mouse_y`. -/
structure Input where
  keyZ : Bool
  keyS : Bool
  keyQ : Bool
  keyD : Bool
  shieldBtn : Bool
  fire : Bool
  mouseX : ℚ
  mouseY : ℚ
  deriving DecidableEq

/-- The movement part of `Player.update` (lines 88-97). -/
def Player.moveStep (inp : Input) (walkable : ℚ → ℚ → Bool) (p : Player) : Player :=
  let dy := (if inp.keyZ = true then -p.speed else 0) + (if inp.keyS = true then p.speed else 0)
  let dx := (if inp.keyQ = true then -p.speed else 0) + (if inp.keyD = true then p.speed else 0)
  let xy := move_with_collision p.x p.y dx dy walkable
  { p with x := xy.1, y := xy.2 }

/-- The shield-activation part of `Player.update` (lines 100-101). -/
def Player.activationStep (inp : Input) (p : Player) : Player :=
  if inp.shieldBtn = true ∧ p.shield_cooldown = 0 then p.activate_shield else p

/-- The shield state machine part of `Player.update` (lines 103-111); the
`shield_angle` rotation on line 106 is cosmetic and not modelled. -/
def Player.shieldStep (p : Player) : Player :=
  if p.shield_active = true then
    let p1 := { p with shield_timer := p.shield_timer - 1 }
    if p1.shield_timer ≤ 0 then
      { p1 with shield_active := false, shield_cooldown := GameConfig.SHIELD_COOLDOWN }
    else p1
  else if 0 < p.shield_cooldown then
    { p with shield_cooldown := p.shield_cooldown - 1 }
  else p

/-- The reload-timer part of `Player.update` (lines 113-114). -/
def Player.reloadStep (p : Player) : Player :=
  if 0 < p.reload_timer then { p with reload_timer := p.reload_timer - 1 } else p

/-- `Player.update` (lines 87-114): movement, then shield activation, then the
shield state machine, then the reload decrement. -/
def Player.update (inp : Input) (walkable : ℚ → ℚ → Bool) (p : Player) : Player :=
  Player.reloadStep (Player.shieldStep (Player.activationStep inp (Player.moveStep inp walkable p)))

/-- `Bullet` state (lines 126-132). -/
structure Bullet where
  x : ℚ
  y : ℚ
  speed : ℚ
  vx : ℚ
  vy : ℚ
  active : Bool
  owner : String
  deriving DecidableEq

/-- `Bullet.__init__` (lines 127-132). -/
def Bullet.new (x y vx vy : ℚ) (owner : String) : Bullet :=
  { x := x, y := y, speed := GameConfig.BULLET_SPEED, vx := vx, vy := vy,
    active := true, owner := owner }

/-- `Bullet.update` (lines 134-140): move with collision, then deactivate when the
resulting position is out of map bounds, then deactivate when it is not
walkable. -/
def Bullet.update (walkable : ℚ → ℚ → Bool) (b : Bullet) : Bullet :=
  let xy := move_with_collision b.x b.y b.vx b.vy walkable
  let b1 := { b with x := xy.1, y := xy.2 }
  let b2 :=
    if b1.x < 0 ∨ (GameConfig.MAP_WIDTH * GameConfig.TILE_SIZE : ℚ) ≤ b1.x ∨
       b1.y < 0 ∨ (GameConfig.MAP_HEIGHT * GameConfig.TILE_SIZE : ℚ) ≤ b1.y then
      { b1 with active := false }
    else b1
  if walkable b2.x b2.y = false then { b2 with active := false } else b2

/-- `Enemy` state (lines 142-148). -/
structure Enemy where
  x : ℚ
  y : ℚ
  speed : ℚ
  etype : ℕ
  hp : ℤ
  reload_timer : ℤ
  deriving DecidableEq

/-- `Enemy.__init__` (lines 143-148). -/
def Enemy.new (x y : ℚ) (etype : ℕ) : Enemy :=
  { x := x, y := y, speed := if etype = GameConfig.CHASER then 0.5 else 0.3,
    etype := etype, hp := 2, reload_timer := 60 }

/-- `Enemy.is_alive` (lines 171-172). -/
def Enemy.is_alive (e : Enemy) : Bool :=
  decide (0 < e.hp)

/-- The pursuit part of `Enemy.update` (lines 151-157): move one step toward the
player unless the distance is zero. -/
def Enemy.chaseStep (m : MathLib) (walkable : ℚ → ℚ → Bool) (p : Player) (e : Enemy) : Enemy :=
  let dx := p.x - e.x
  let dy := p.y - e.y
  let dist := m.hypot dx dy
  if dist ≠ 0 then
    let xy := move_with_collision e.x e.y (dx / dist * e.speed) (dy / dist * e.speed) walkable
    { e with x := xy.1, y := xy.2 }
  else e

/-- `Enemy.update` (lines 150-169): pursuit, then the archetype branch (shooter
fire / bomber detonation), then the unconditional `reload_timer` decrement.  The
bomber's splash-damage branch (lines 165-167) is a computed condition whose body
is `pass`, so it returns the player unchanged; the shooter's bullet is aimed with
`math.cos/sin(math.atan2(dy, dx))` on the pre-move relative vector and spawned at
the post-move enemy position.  The returned triple is the updated enemy, the
updated shared bullet list, and the (never modified) player. -/
def Enemy.update (m : MathLib) (p : Player) (bs : List Bullet) (walkable : ℚ → ℚ → Bool)
    (e : Enemy) : Enemy × List Bullet × Player :=
  let dx := p.x - e.x
  let dy := p.y - e.y
  let dist := m.hypot dx dy
  let e1 := Enemy.chaseStep m walkable p e
  let r : Enemy × List Bullet × Player :=
    if e1.etype = GameConfig.SHOOTER then
      if e1.reload_timer ≤ 0 then
        ({ e1 with reload_timer := 60 },
         bs ++ [Bullet.new e1.x e1.y (m.dirCos dy dx * 2) (m.dirSin dy dx * 2) "enemy"], p)
      else (e1, bs, p)
    else if e1.etype = GameConfig.BOMBER then
      if dist < 8 ∨ e1.reload_timer ≤ 0 then
        let p2 := if dist < 16 ∧ p.shield_active = false then p else p
        ({ e1 with hp := 0 }, bs, p2)
      else (e1, bs, p)
    else (e1, bs, p)
  ({ r.1 with reload_timer := r.1.reload_timer - 1 }, r.2.1, r.2.2)

/-- `Game.camera_x` (lines 272-275). -/
def camera_x (p : Player) : ℚ :=
  max 0 (min (p.x - (GameConfig.WINDOW_WIDTH : ℚ) / 2)
    ((GameConfig.MAP_WIDTH * GameConfig.TILE_SIZE : ℚ) - GameConfig.WINDOW_WIDTH))

/-- `Game.camera_y` (lines 277-280). -/
def camera_y (p : Player) : ℚ :=
  max 0 (min (p.y - (GameConfig.WINDOW_HEIGHT : ℚ) / 2)
    ((GameConfig.MAP_HEIGHT * GameConfig.TILE_SIZE : ℚ) - GameConfig.WINDOW_HEIGHT))

/-- The fire-handling block of `Game.update` (lines 284-294): on an edge-triggered
left click, and only when `can_shoot()` holds, aim at the mouse (translated by the
camera), spawn a player bullet unless the aim vector is zero, and call
`Player.shoot`. -/
def shootPhase (m : MathLib) (inp : Input) (p : Player) (bs : List Bullet) :
    Player × List Bullet :=
  if inp.fire = true ∧ p.can_shoot = true then
    let mx := inp.mouseX + camera_x p
    let my := inp.mouseY + camera_y p
    let dx := mx - p.x
    let dy := my - p.y
    let dist := m.hypot dx dy
    let bs1 :=
      if dist ≠ 0 then
        bs ++ [Bullet.new p.x p.y (dx / dist * GameConfig.BULLET_SPEED)
                 (dy / dist * GameConfig.BULLET_SPEED) "player"]
      else bs
    (p.shoot, bs1)
  else (p, bs)

/-- The inner enemy scan of `Game.update` for a player-owned bullet
(lines 302-306): find the first living enemy within `BULLET_COLLISION_RADIUS`,
decrement its hp and stop (`break`); `none` when no enemy is hit. -/
def hitFirstEnemy (m : MathLib) (bx bY : ℚ) : List Enemy → Option (List Enemy)
  | [] => none
  | e :: rest =>
    if e.is_alive = true ∧ m.hypot (bx - e.x) (bY - e.y) < GameConfig.BULLET_COLLISION_RADIUS then
      some ({ e with hp := e.hp - 1 } :: rest)
    else
      match hitFirstEnemy m bx bY rest with
      | some rest1 => some (e :: rest1)
      | none => none

/-- The per-bullet body of the collision loop of `Game.update` (lines 298-311):
inactive bullets are skipped; a player bullet is resolved against the enemy list;
an enemy bullet within radius of the player is deactivated and, iff the shield is
not active, decrements the player's hp. -/
def resolveBullet (m : MathLib) (p : Player) (es : List Enemy) (b : Bullet) :
    Bullet × List Enemy × Player :=
  if b.active = false then (b, es, p)
  else if b.owner = "player" then
    match hitFirstEnemy m b.x b.y es with
    | some es1 => ({ b with active := false }, es1, p)
    | none => (b, es, p)
  else if b.owner = "enemy" then
    if m.hypot (b.x - p.x) (b.y - p.y) < GameConfig.BULLET_COLLISION_RADIUS then
      ({ b with active := false }, es,
       if p.shield_active = false then { p with hp := p.hp - 1 } else p)
    else (b, es, p)
  else (b, es, p)

/-- The full collision loop of `Game.update` (lines 298-311), bullet by bullet in
list order; hp decrements made for an earlier bullet are visible to later ones. -/
def collisionPhase (m : MathLib) : List Bullet → List Enemy → Player →
    List Bullet × List Enemy × Player
  | [], es, p => ([], es, p)
  | b :: bs, es, p =>
    let r := resolveBullet m p es b
    let rest := collisionPhase m bs r.2.1 r.2.2
    (r.1 :: rest.1, rest.2.1, rest.2.2)

/-- The enemy loop of `Game.update` (lines 314-315): update every enemy in list
order, threading the shared bullet list (shooter spawns are visible to later
enemies) and the player. -/
def updateEnemies (m : MathLib) (walkable : ℚ → ℚ → Bool) :
    List Enemy → List Bullet → Player → List Enemy × List Bullet × Player
  | [], bs, p => ([], bs, p)
  | e :: es, bs, p =>
    let r := Enemy.update m p bs walkable e
    let rest := updateEnemies m walkable es r.2.1 r.2.2
    (r.1 :: rest.1, rest.2.1, rest.2.2)

/-- The enemy phase of `Game.update` (lines 314-316): update all enemies, then
rebuild the enemy collection keeping only the living ones. -/
def enemiesPhase (m : MathLib) (walkable : ℚ → ℚ → Bool) (es : List Enemy)
    (bs : List Bullet) (p : Player) : List Enemy × List Bullet × Player :=
  let r := updateEnemies m walkable es bs p
  (r.1.filter (fun e => e.is_alive), r.2.1, r.2.2)

/-- One whole `Game.update` tick (lines 282-319): player update, fire handling,
bullet updates, collision resolution, purge of inactive bullets, enemy updates,
purge of dead enemies, and the termination check (`player.hp <= 0`). -/
def gameTick (m : MathLib) (g : Grid) (inp : Input) (p : Player) (bs : List Bullet)
    (es : List Enemy) : Player × List Bullet × List Enemy × Bool :=
  let p1 := Player.update inp (is_walkable g) p
  let r1 := shootPhase m inp p1 bs
  let bs1 := r1.2.map (Bullet.update (is_walkable g))
  let r2 := collisionPhase m bs1 es r1.1
  let bs2 := r2.1.filter (fun b => b.active)
  let r3 := enemiesPhase m (is_walkable g) r2.2.1 bs2 r2.2.2
  (r3.2.2, r3.2.1, r3.1, decide (r3.2.2.hp ≤ 0))

/-- `n` successive `Enemy.update` calls on a single enemy (the shooter scenario of
the specification), threading the bullet list and the player returned by each
call. -/
def Enemy.updateN (m : MathLib) (walkable : ℚ → ℚ → Bool) :
    ℕ → Player → Enemy → List Bullet → Enemy × List Bullet × Player
  | 0, p, e, bs => (e, bs, p)
  | n + 1, p, e, bs =>
    let r := Enemy.update m p bs walkable e
    Enemy.updateN m walkable n r.2.2 r.1 r.2.1

/-- The player created by `Game.__init__` (lines 184-187), at the map centre. -/
def initial_player : Player :=
  Player.init (((GameConfig.MAP_WIDTH * GameConfig.TILE_SIZE) / 2 : ℕ) : ℚ)
    (((GameConfig.MAP_HEIGHT * GameConfig.TILE_SIZE) / 2 : ℕ) : ℚ)

/-- The player states reachable in the game: the initial player, closed under the
three mutations the program performs on the player — `Player.update` each tick,
`Player.shoot` from the fire handling, and the hp decrement from an unshielded
enemy-bullet hit. -/
inductive PReachable : Player → Prop where
  | init : PReachable initial_player
  | tick (p : Player) (inp : Input) (walkable : ℚ → ℚ → Bool) :
      PReachable p → PReachable (Player.update inp walkable p)
  | shot (p : Player) : PReachable p → PReachable (Player.shoot p)
  | hit (p : Player) : PReachable p → PReachable { p with hp := p.hp - 1 }

/-- An all-floor grid, used to exhibit concrete walkable configurations. -/
def openGrid : Grid := fun _ _ => GameConfig.FLOOR_TILE

/-- An all-wall grid. -/
def wallGrid : Grid := fun _ _ => GameConfig.WALL_TILE

/-- Both axis moves of `move_with_collision` are guarded by the walkability
predicate, so any predicate true at the start position is true at the result. -/
theorem move_with_collision_walkable (walkable : ℚ → ℚ → Bool) (x y dx dy : ℚ)
    (h : walkable x y = true) :
    walkable (move_with_collision x y dx dy walkable).1
      (move_with_collision x y dx dy walkable).2 = true := by
  by_cases h1 : walkable (x + dx) y = true
  · by_cases h2 : walkable (x + dx) (y + dy) = true
    · simp [move_with_collision, h1, h2]
    · simp [move_with_collision, h1, h2]
  · by_cases h2 : walkable x (y + dy) = true
    · simp [move_with_collision, h1, h2]
    · simp [move_with_collision, h1, h2, h]

/-- C3: for every entity at a walkable position `(x, y)` and every displacement
`(dx, dy)`, the position produced by `move_with_collision dx dy is_walkable` is
again walkable — the entity never ends a move inside a wall tile or outside map
bounds. -/
theorem collision_containment (g : Grid) (x y dx dy : ℚ)
    (h : is_walkable g x y = true) :
    is_walkable g (move_with_collision x y dx dy (is_walkable g)).1
      (move_with_collision x y dx dy (is_walkable g)).2 = true :=
  move_with_collision_walkable (is_walkable g) x y dx dy h

/-- Witness for `collision_containment` at a concrete input. -/
theorem collision_containment_witness :
    is_walkable openGrid 12 12 = true ∧
    is_walkable openGrid (move_with_collision 12 12 100 (-5) (is_walkable openGrid)).1
      (move_with_collision 12 12 100 (-5) (is_walkable openGrid)).2 = true :=
  ⟨by with_unfolding_all decide, collision_containment openGrid 12 12 100 (-5) (by with_unfolding_all decide)⟩

/-- C1 (refuting the claim, exhibiting the code bug): after the configured
`SMOOTHING_ITERATIONS = 2` smoothing passes, border cells of the generated map
are `FLOOR_TILE`, not `WALL_TILE`, for every random seed — each smoothing pass
writes a fresh grid pre-filled with `FLOOR_TILE` and only assigns interior
cells, so the border forced to wall before the loop is wiped to floor. -/
theorem generated_map_border_is_floor (seed : Grid) :
    generate_map seed 0 0 = GameConfig.FLOOR_TILE ∧
    generate_map seed 0 (GameConfig.MAP_WIDTH - 1) = GameConfig.FLOOR_TILE ∧
    generate_map seed (GameConfig.MAP_HEIGHT - 1) 0 = GameConfig.FLOOR_TILE ∧
    GameConfig.FLOOR_TILE ≠ GameConfig.WALL_TILE :=
  ⟨rfl, rfl, rfl, by decide⟩

/-- C8: after `clear_safe_zone cx cy R`, every tile of the inclusive
`(2R+1)`-square centred on the tile containing `(cx, cy)`, intersected with the
grid bounds, is floor, and every tile outside that square is unchanged. -/
theorem clear_safe_zone_spec (g : Grid) (cx cy : ℚ) (R : ℕ) (y x : ℕ) :
    ((Int.floor (cy / (GameConfig.TILE_SIZE : ℚ)) - R ≤ (y : ℤ) ∧
      (y : ℤ) ≤ Int.floor (cy / (GameConfig.TILE_SIZE : ℚ)) + R ∧
      Int.floor (cx / (GameConfig.TILE_SIZE : ℚ)) - R ≤ (x : ℤ) ∧
      (x : ℤ) ≤ Int.floor (cx / (GameConfig.TILE_SIZE : ℚ)) + R ∧
      y < GameConfig.MAP_HEIGHT ∧ x < GameConfig.MAP_WIDTH →
      clear_safe_zone cx cy R g y x = GameConfig.FLOOR_TILE) ∧
     (¬(Int.floor (cy / (GameConfig.TILE_SIZE : ℚ)) - R ≤ (y : ℤ) ∧
        (y : ℤ) ≤ Int.floor (cy / (GameConfig.TILE_SIZE : ℚ)) + R ∧
        Int.floor (cx / (GameConfig.TILE_SIZE : ℚ)) - R ≤ (x : ℤ) ∧
        (x : ℤ) ≤ Int.floor (cx / (GameConfig.TILE_SIZE : ℚ)) + R) →
      clear_safe_zone cx cy R g y x = g y x)) := by
  constructor
  · intro h
    unfold clear_safe_zone
    dsimp only
    split
    · rfl
    · exfalso; omega
  · intro h
    unfold clear_safe_zone
    dsimp only
    split
    · exfalso; omega
    · rfl

/-- Witness for `clear_safe_zone_spec`: the configured carve (centre `(1024, 1024)`,
radius `10`) turns tile `(128, 128)` of an all-wall grid to floor and leaves tile
`(0, 0)` a wall. -/
theorem clear_safe_zone_spec_witness :
    clear_safe_zone 1024 1024 10 wallGrid 128 128 = GameConfig.FLOOR_TILE ∧
    clear_safe_zone 1024 1024 10 wallGrid 0 0 = wallGrid 0 0 :=
  ⟨(clear_safe_zone_spec wallGrid 1024 1024 10 128 128).1 (by with_unfolding_all decide),
   (clear_safe_zone_spec wallGrid 1024 1024 10 0 0).2 (by with_unfolding_all decide)⟩

/-- A walkable position is inside the map bounds (`is_walkable` returns `false`
on any out-of-range coordinate). -/
theorem is_walkable_in_bounds (g : Grid) (x y : ℚ) (h : is_walkable g x y = true) :
    ¬(x < 0 ∨ (GameConfig.MAP_WIDTH * GameConfig.TILE_SIZE : ℚ) ≤ x ∨
      y < 0 ∨ (GameConfig.MAP_HEIGHT * GameConfig.TILE_SIZE : ℚ) ≤ y) := by
  intro hcon
  unfold is_walkable at h
  rw [if_pos hcon] at h
  exact Bool.false_ne_true h

/-- C2 (amended): one `Bullet.update` call deactivates an active bullet exactly
when its post-move position is out of map bounds or not walkable; but because the
bullet moves through `move_with_collision`, a bullet starting at a walkable
position always ends at a walkable in-bounds position, so it stays active — it
never deactivates on hitting a wall, it merely stops. -/
theorem bullet_update_deactivation_amended :
    (∀ (walkable : ℚ → ℚ → Bool) (b : Bullet), b.active = true →
      ((Bullet.update walkable b).active = false ↔
        ((move_with_collision b.x b.y b.vx b.vy walkable).1 < 0 ∨
         (GameConfig.MAP_WIDTH * GameConfig.TILE_SIZE : ℚ) ≤
           (move_with_collision b.x b.y b.vx b.vy walkable).1 ∨
         (move_with_collision b.x b.y b.vx b.vy walkable).2 < 0 ∨
         (GameConfig.MAP_HEIGHT * GameConfig.TILE_SIZE : ℚ) ≤
           (move_with_collision b.x b.y b.vx b.vy walkable).2 ∨
         walkable (move_with_collision b.x b.y b.vx b.vy walkable).1
           (move_with_collision b.x b.y b.vx b.vy walkable).2 = false))) ∧
    (∀ (g : Grid) (b : Bullet), b.active = true → is_walkable g b.x b.y = true →
      (Bullet.update (is_walkable g) b).active = true) := by
  constructor
  · intro wk b hb
    unfold Bullet.update
    dsimp only
    split_ifs with h1 h2 <;> simp_all
  · intro g b hb hw
    have hmove := move_with_collision_walkable (is_walkable g) b.x b.y b.vx b.vy hw
    have hbounds := is_walkable_in_bounds g _ _ hmove
    unfold Bullet.update
    dsimp only
    rw [if_neg hbounds]
    rw [if_neg (by simp [hmove])]
    exact hb

/-- A grid whose only floor tile is tile `(x, y) = (1, 1)`. -/
def wallAheadGrid : Grid := fun y x =>
  if y = 1 ∧ x = 1 then GameConfig.FLOOR_TILE else GameConfig.WALL_TILE

/-- A bullet on the floor tile of `wallAheadGrid`, one pixel away from the wall
tile it is heading into at speed `vx = 3`. -/
def wallBoundBullet : Bullet :=
  { x := 15, y := 12, speed := GameConfig.BULLET_SPEED, vx := 3, vy := 0,
    active := true, owner := "player" }

/-- C2 counterexample: a bullet heading straight into a wall tile (its next
x-position lands on an unwalkable tile) is a fixed point of `Bullet.update` — it
stays active (and in place) after the contact update, and hence after every
further update, contradicting "becomes inactive within exactly one update call
after contact". -/
theorem bullet_into_wall_stays_active :
    is_walkable wallAheadGrid (wallBoundBullet.x + wallBoundBullet.vx) wallBoundBullet.y
        = false ∧
    Bullet.update (is_walkable wallAheadGrid) wallBoundBullet = wallBoundBullet ∧
    wallBoundBullet.active = true :=
  ⟨by with_unfolding_all decide, by with_unfolding_all decide, rfl⟩

/-- Witness for `bullet_update_deactivation_amended` at a concrete input: a fresh
player bullet on an all-floor grid. -/
theorem bullet_update_deactivation_amended_witness :
    ((Bullet.update (is_walkable openGrid) (Bullet.new 12 12 3 0 "player")).active = false ↔
      ((move_with_collision (Bullet.new 12 12 3 0 "player").x (Bullet.new 12 12 3 0 "player").y
          (Bullet.new 12 12 3 0 "player").vx (Bullet.new 12 12 3 0 "player").vy
          (is_walkable openGrid)).1 < 0 ∨
       (GameConfig.MAP_WIDTH * GameConfig.TILE_SIZE : ℚ) ≤
         (move_with_collision (Bullet.new 12 12 3 0 "player").x (Bullet.new 12 12 3 0 "player").y
           (Bullet.new 12 12 3 0 "player").vx (Bullet.new 12 12 3 0 "player").vy
           (is_walkable openGrid)).1 ∨
       (move_with_collision (Bullet.new 12 12 3 0 "player").x (Bullet.new 12 12 3 0 "player").y
          (Bullet.new 12 12 3 0 "player").vx (Bullet.new 12 12 3 0 "player").vy
          (is_walkable openGrid)).2 < 0 ∨
       (GameConfig.MAP_HEIGHT * GameConfig.TILE_SIZE : ℚ) ≤
         (move_with_collision (Bullet.new 12 12 3 0 "player").x (Bullet.new 12 12 3 0 "player").y
           (Bullet.new 12 12 3 0 "player").vx (Bullet.new 12 12 3 0 "player").vy
           (is_walkable openGrid)).2 ∨
       is_walkable openGrid
         (move_with_collision (Bullet.new 12 12 3 0 "player").x (Bullet.new 12 12 3 0 "player").y
           (Bullet.new 12 12 3 0 "player").vx (Bullet.new 12 12 3 0 "player").vy
           (is_walkable openGrid)).1
         (move_with_collision (Bullet.new 12 12 3 0 "player").x (Bullet.new 12 12 3 0 "player").y
           (Bullet.new 12 12 3 0 "player").vx (Bullet.new 12 12 3 0 "player").vy
           (is_walkable openGrid)).2 = false)) ∧
    (Bullet.update (is_walkable openGrid) (Bullet.new 12 12 3 0 "player")).active = true :=
  ⟨bullet_update_deactivation_amended.1 (is_walkable openGrid) (Bullet.new 12 12 3 0 "player") rfl,
   bullet_update_deactivation_amended.2 openGrid (Bullet.new 12 12 3 0 "player") rfl
     (by with_unfolding_all decide)⟩

/-- `Player.moveStep` changes only the position. -/
theorem moveStep_reload (inp : Input) (wk : ℚ → ℚ → Bool) (p : Player) :
    (Player.moveStep inp wk p).reload_timer = p.reload_timer := rfl

/-- `Player.activationStep` never touches the reload timer. -/
theorem activationStep_reload (inp : Input) (p : Player) :
    (Player.activationStep inp p).reload_timer = p.reload_timer := by
  unfold Player.activationStep Player.activate_shield
  split <;> rfl

/-- `Player.shieldStep` never touches the reload timer. -/
theorem shieldStep_reload (p : Player) :
    (Player.shieldStep p).reload_timer = p.reload_timer := by
  unfold Player.shieldStep
  dsimp only
  split_ifs <;> rfl

/-- The zero math library, a concrete `MathLib` instance for witnesses. -/
def mlibZero : MathLib :=
  { hypot := fun _ _ => 0, dirCos := fun _ _ => 1, dirSin := fun _ _ => 0 }

/-- The everywhere-true walkability predicate, for witnesses. -/
def wkTrue : ℚ → ℚ → Bool := fun _ _ => true

/-- An input snapshot with the fire button pressed and nothing else. -/
def fireInput : Input :=
  { keyZ := false, keyS := false, keyQ := false, keyD := false,
    shieldBtn := false, fire := true, mouseX := 0, mouseY := 0 }

/-- An input snapshot with the shield button pressed and nothing else. -/
def shieldPressInput : Input :=
  { keyZ := false, keyS := false, keyQ := false, keyD := false,
    shieldBtn := true, fire := false, mouseX := 0, mouseY := 0 }

/-- A player mid-reload (`reload_timer = 5`, so `can_shoot()` is false). -/
def reload5Player : Player := { Player.init 0 0 with reload_timer := 5 }

/-- A player whose shield is on cooldown (`shield_cooldown = 5`). -/
def cooldown5Player : Player := { Player.init 0 0 with shield_cooldown := 5 }

/-- C4 counterexample: calling `Player.shoot` while `can_shoot()` is false
(reload timer `5`) does not leave the reload timer unchanged — it overwrites it
with `RELOAD_TIME = 10`. -/
theorem shoot_overwrites_reload :
    reload5Player.can_shoot = false ∧
    reload5Player.reload_timer = 5 ∧
    (Player.shoot reload5Player).reload_timer = 10 := by
  refine ⟨rfl, rfl, rfl⟩

/-- C4 (amended): the game's fire handling (`Game.update` lines 284-294) is a
no-op when `can_shoot()` is false — the player (hence the reload timer) and the
bullet list are unchanged and no bullet spawns; `Player.shoot` itself is only
invoked under that guard.  Each `Player.update` decrements a positive reload
timer by exactly 1 and leaves a zero timer at zero, so between shots the timer
decreases monotonically to 0. -/
theorem fire_gating_amended :
    (∀ (m : MathLib) (inp : Input) (p : Player) (bs : List Bullet),
      p.can_shoot = false → shootPhase m inp p bs = (p, bs)) ∧
    (∀ (inp : Input) (wk : ℚ → ℚ → Bool) (p : Player),
      (Player.update inp wk p).reload_timer =
        if 0 < p.reload_timer then p.reload_timer - 1 else p.reload_timer) := by
  constructor
  · intro m inp p bs h
    unfold shootPhase
    rw [if_neg]
    simp [h]
  · intro inp wk p
    unfold Player.update Player.reloadStep
    split_ifs with h1 h2 <;>
      simp_all [shieldStep_reload, activationStep_reload, moveStep_reload]

/-- Witness for `fire_gating_amended`: the fire request of a mid-reload player is
a no-op, and one tick decrements its reload timer from 5 to 4. -/
theorem fire_gating_amended_witness :
    shootPhase mlibZero fireInput reload5Player [] = (reload5Player, []) ∧
    (Player.update fireInput wkTrue reload5Player).reload_timer =
      (if 0 < reload5Player.reload_timer then reload5Player.reload_timer - 1
       else reload5Player.reload_timer) :=
  ⟨fire_gating_amended.1 mlibZero fireInput reload5Player [] rfl,
   fire_gating_amended.2 fireInput wkTrue reload5Player⟩

/-- `Player.shieldStep` preserves the shield exclusion invariant. -/
theorem shieldStep_exclusion (p : Player)
    (h : ¬(p.shield_active = true ∧ 0 < p.shield_cooldown)) :
    ¬((Player.shieldStep p).shield_active = true ∧ 0 < (Player.shieldStep p).shield_cooldown) := by
  unfold Player.shieldStep
  dsimp only
  split_ifs <;> simp_all

/-- `Player.activationStep` preserves the shield exclusion invariant (activation
is guarded by `shield_cooldown == 0` and does not touch the cooldown). -/
theorem activationStep_exclusion (inp : Input) (p : Player)
    (h : ¬(p.shield_active = true ∧ 0 < p.shield_cooldown)) :
    ¬((Player.activationStep inp p).shield_active = true ∧
      0 < (Player.activationStep inp p).shield_cooldown) := by
  unfold Player.activationStep Player.activate_shield
  split_ifs with h1 <;> simp_all

/-- `Player.reloadStep` never touches the shield flag. -/
theorem reloadStep_shield_active (p : Player) :
    (Player.reloadStep p).shield_active = p.shield_active := by
  unfold Player.reloadStep
  split_ifs <;> rfl

/-- `Player.reloadStep` never touches the shield cooldown. -/
theorem reloadStep_cooldown (p : Player) :
    (Player.reloadStep p).shield_cooldown = p.shield_cooldown := by
  unfold Player.reloadStep
  split_ifs <;> rfl

/-- One `Player.update` preserves the shield exclusion invariant: a player that
is not simultaneously shield-active and on cooldown stays that way. -/
theorem update_preserves_shield_exclusion (inp : Input) (wk : ℚ → ℚ → Bool) (p : Player)
    (h : ¬(p.shield_active = true ∧ 0 < p.shield_cooldown)) :
    ¬((Player.update inp wk p).shield_active = true ∧
      0 < (Player.update inp wk p).shield_cooldown) := by
  have h1 : ¬((Player.moveStep inp wk p).shield_active = true ∧
      0 < (Player.moveStep inp wk p).shield_cooldown) := h
  have h3 := shieldStep_exclusion _ (activationStep_exclusion inp _ h1)
  unfold Player.update
  intro hcon
  rw [reloadStep_shield_active, reloadStep_cooldown] at hcon
  exact h3 hcon

/-- `Player.moveStep` ignores the shield button. -/
theorem moveStep_shieldBtn (inp : Input) (wk : ℚ → ℚ → Bool) (p : Player) :
    Player.moveStep { inp with shieldBtn := false } wk p = Player.moveStep inp wk p := rfl

/-- `Player.moveStep` changes only the position. -/
theorem moveStep_cooldown (inp : Input) (wk : ℚ → ℚ → Bool) (p : Player) :
    (Player.moveStep inp wk p).shield_cooldown = p.shield_cooldown := rfl

/-- C5: in every reachable player state the shield is never simultaneously active
and on cooldown, and a shield-activation request arriving while the cooldown is
positive has no effect — the tick with the request produces exactly the state the
tick without it would. -/
theorem shield_mutual_exclusion :
    (∀ p : Player, PReachable p → ¬(p.shield_active = true ∧ 0 < p.shield_cooldown)) ∧
    (∀ (p : Player) (inp : Input) (wk : ℚ → ℚ → Bool), 0 < p.shield_cooldown →
      Player.update inp wk p = Player.update { inp with shieldBtn := false } wk p) := by
  constructor
  · intro p hr
    induction hr with
    | init => intro hcon; exact absurd hcon.1 (by decide)
    | tick p inp wk _ ih => exact update_preserves_shield_exclusion inp wk p ih
    | shot p _ ih => exact ih
    | hit p _ ih => exact ih
  · intro p inp wk h
    have ha : Player.activationStep { inp with shieldBtn := false } (Player.moveStep inp wk p) =
        Player.activationStep inp (Player.moveStep inp wk p) := by
      unfold Player.activationStep
      rw [if_neg (by simp), if_neg (by rw [moveStep_cooldown]; rintro ⟨-, h2⟩; omega)]
    unfold Player.update
    rw [moveStep_shieldBtn, ha]

/-- Witness for `shield_mutual_exclusion`: the initial player, and a concrete
player on cooldown for which the shield request changes nothing. -/
theorem shield_mutual_exclusion_witness :
    ¬(initial_player.shield_active = true ∧ 0 < initial_player.shield_cooldown) ∧
    Player.update shieldPressInput wkTrue cooldown5Player =
      Player.update { shieldPressInput with shieldBtn := false } wkTrue cooldown5Player :=
  ⟨shield_mutual_exclusion.1 initial_player PReachable.init,
   shield_mutual_exclusion.2 cooldown5Player shieldPressInput wkTrue (by decide)⟩

/-- The enemy scan stops at the first living enemy within the collision radius:
with no hit in the prefix and a hit at `e`, exactly `e` loses one hp and the
suffix is untouched. -/
theorem hitFirstEnemy_first (m : MathLib) (bx bY : ℚ) (l1 l2 : List Enemy) (e : Enemy)
    (hmiss : ∀ e1, e1 ∈ l1 →
      ¬(e1.is_alive = true ∧ m.hypot (bx - e1.x) (bY - e1.y) < GameConfig.BULLET_COLLISION_RADIUS))
    (halive : e.is_alive = true)
    (hnear : m.hypot (bx - e.x) (bY - e.y) < GameConfig.BULLET_COLLISION_RADIUS) :
    hitFirstEnemy m bx bY (l1 ++ e :: l2) = some (l1 ++ { e with hp := e.hp - 1 } :: l2) := by
  induction l1 with
  | nil =>
    simp only [List.nil_append]
    unfold hitFirstEnemy
    rw [if_pos ⟨halive, hnear⟩]
  | cons a l ih =>
    simp only [List.cons_append]
    unfold hitFirstEnemy
    rw [if_neg (hmiss a (List.mem_cons_self a l)),
      ih (fun e1 he1 => hmiss e1 (List.mem_cons_of_mem a he1))]

/-- C7: in the collision-resolution pass, an active player-owned bullet hits at
most one enemy — the first living enemy in iteration order within
`BULLET_COLLISION_RADIUS` loses exactly 1 hp, the bullet is deactivated, and
every other enemy (before and after the hit) is untouched; and an active
enemy-owned bullet within radius of the player is deactivated and decrements the
player's hp by 1 iff the shield is not active. -/
theorem bullet_collision_resolution :
    (∀ (m : MathLib) (p : Player) (b : Bullet) (l1 l2 : List Enemy) (e : Enemy),
      b.active = true → b.owner = "player" →
      (∀ e1, e1 ∈ l1 →
        ¬(e1.is_alive = true ∧
          m.hypot (b.x - e1.x) (b.y - e1.y) < GameConfig.BULLET_COLLISION_RADIUS)) →
      e.is_alive = true →
      m.hypot (b.x - e.x) (b.y - e.y) < GameConfig.BULLET_COLLISION_RADIUS →
      resolveBullet m p (l1 ++ e :: l2) b =
        ({ b with active := false }, l1 ++ { e with hp := e.hp - 1 } :: l2, p)) ∧
    (∀ (m : MathLib) (p : Player) (es : List Enemy) (b : Bullet),
      b.active = true → b.owner = "enemy" →
      m.hypot (b.x - p.x) (b.y - p.y) < GameConfig.BULLET_COLLISION_RADIUS →
      resolveBullet m p es b =
        ({ b with active := false }, es,
         if p.shield_active = false then { p with hp := p.hp - 1 } else p)) := by
  constructor
  · intro m p b l1 l2 e hb ho hmiss halive hnear
    unfold resolveBullet
    rw [if_neg (by simp [hb]), if_pos ho,
      hitFirstEnemy_first m b.x b.y l1 l2 e hmiss halive hnear]
  · intro m p es b hb ho hnear
    unfold resolveBullet
    rw [if_neg (by simp [hb]), if_neg (by simp [ho]), if_pos ho, if_pos hnear]

/-- Witness for `bullet_collision_resolution`: a player bullet on top of a chaser
(distance 0 under `mlibZero`), and an enemy bullet on top of the unshielded
player. -/
theorem bullet_collision_resolution_witness :
    resolveBullet mlibZero (Player.init 100 100)
        ([] ++ Enemy.new 0 0 GameConfig.CHASER :: []) (Bullet.new 0 0 1 0 "player") =
      ({ Bullet.new 0 0 1 0 "player" with active := false },
       [] ++ { Enemy.new 0 0 GameConfig.CHASER with
                 hp := (Enemy.new 0 0 GameConfig.CHASER).hp - 1 } :: [],
       Player.init 100 100) ∧
    resolveBullet mlibZero (Player.init 100 100) [] (Bullet.new 100 100 1 0 "enemy") =
      ({ Bullet.new 100 100 1 0 "enemy" with active := false }, [],
       if (Player.init 100 100).shield_active = false
       then { Player.init 100 100 with hp := (Player.init 100 100).hp - 1 }
       else Player.init 100 100) :=
  ⟨bullet_collision_resolution.1 mlibZero (Player.init 100 100) (Bullet.new 0 0 1 0 "player")
     [] [] (Enemy.new 0 0 GameConfig.CHASER) rfl rfl (by simp) (by decide) (by decide),
   bullet_collision_resolution.2 mlibZero (Player.init 100 100) []
     (Bullet.new 100 100 1 0 "enemy") rfl rfl (by decide)⟩

/-- `Enemy.chaseStep` changes only the position. -/
theorem chaseStep_etype (m : MathLib) (wk : ℚ → ℚ → Bool) (p : Player) (e : Enemy) :
    (Enemy.chaseStep m wk p e).etype = e.etype := by
  unfold Enemy.chaseStep
  dsimp only
  split_ifs <;> rfl

/-- `Enemy.chaseStep` never touches the fire/detonation timer. -/
theorem chaseStep_reload (m : MathLib) (wk : ℚ → ℚ → Bool) (p : Player) (e : Enemy) :
    (Enemy.chaseStep m wk p e).reload_timer = e.reload_timer := by
  unfold Enemy.chaseStep
  dsimp only
  split_ifs <;> rfl

/-- `Enemy.chaseStep` never touches the hp. -/
theorem chaseStep_hp (m : MathLib) (wk : ℚ → ℚ → Bool) (p : Player) (e : Enemy) :
    (Enemy.chaseStep m wk p e).hp = e.hp := by
  unfold Enemy.chaseStep
  dsimp only
  split_ifs <;> rfl

/-- C9: when a bomber's detonation condition holds in a tick (distance to the
player below 8 pixels, or internal timer at most 0), its hp is forced to 0 that
tick, while the player (in particular the player's hp) and the bullet list are
left unchanged — the splash-damage condition of the source is computed with a
`pass` body, so no damage is ever applied, even at distance below 16 with the
shield inactive. -/
theorem bomber_detonation_no_splash (m : MathLib) (p : Player) (bs : List Bullet)
    (wk : ℚ → ℚ → Bool) (e : Enemy) (htype : e.etype = GameConfig.BOMBER)
    (hdet : m.hypot (p.x - e.x) (p.y - e.y) < 8 ∨ e.reload_timer ≤ 0) :
    (Enemy.update m p bs wk e).1.hp = 0 ∧
    (Enemy.update m p bs wk e).2.2 = p ∧
    (Enemy.update m p bs wk e).2.1 = bs := by
  have h1 : ¬((Enemy.chaseStep m wk p e).etype = GameConfig.SHOOTER) := by
    rw [chaseStep_etype, htype]; decide
  have h2 : (Enemy.chaseStep m wk p e).etype = GameConfig.BOMBER := by
    rw [chaseStep_etype, htype]
  have h3 : m.hypot (p.x - e.x) (p.y - e.y) < 8 ∨
      (Enemy.chaseStep m wk p e).reload_timer ≤ 0 := by
    rw [chaseStep_reload]; exact hdet
  unfold Enemy.update
  dsimp only
  rw [if_neg h1, if_pos h2, if_pos h3]
  exact ⟨rfl, by dsimp only; rw [ite_self], rfl⟩

/-- A bomber standing on the (unshielded) player under `mlibZero`. -/
def bomberAtPlayer : Enemy := Enemy.new 0 0 GameConfig.BOMBER

/-- Witness for `bomber_detonation_no_splash`: distance 0 (below 8, and below 16
with the shield inactive) — hp forced to 0, player untouched. -/
theorem bomber_detonation_no_splash_witness :
    (Enemy.update mlibZero (Player.init 0 0) [] wkTrue bomberAtPlayer).1.hp = 0 ∧
    (Enemy.update mlibZero (Player.init 0 0) [] wkTrue bomberAtPlayer).2.2 = Player.init 0 0 ∧
    (Enemy.update mlibZero (Player.init 0 0) [] wkTrue bomberAtPlayer).2.1 = [] :=
  bomber_detonation_no_splash mlibZero (Player.init 0 0) [] wkTrue bomberAtPlayer rfl
    (Or.inl (by decide))

/-- A shooter whose fire timer is still positive only pursues: timer decremented
by one, no bullet spawned, player untouched. -/
theorem shooter_no_fire (m : MathLib) (p : Player) (bs : List Bullet) (wk : ℚ → ℚ → Bool)
    (e : Enemy) (htype : e.etype = GameConfig.SHOOTER) (hpos : 0 < e.reload_timer) :
    Enemy.update m p bs wk e =
      ({ Enemy.chaseStep m wk p e with reload_timer := e.reload_timer - 1 }, bs, p) := by
  have h1 : (Enemy.chaseStep m wk p e).etype = GameConfig.SHOOTER := by
    rw [chaseStep_etype]; exact htype
  have h2 : ¬((Enemy.chaseStep m wk p e).reload_timer ≤ 0) := by
    rw [chaseStep_reload]; omega
  unfold Enemy.update
  dsimp only
  rw [if_pos h1, if_neg h2, chaseStep_reload]

/-- A shooter whose fire timer has reached 0 or below fires: the timer is reset
to 60 (then the unconditional end-of-tick decrement leaves 59), exactly one
bullet is appended, owned by the enemy, spawned at the post-move enemy position
and aimed along `atan2` of the pre-move vector to the player; the player is
untouched. -/
theorem shooter_fire (m : MathLib) (p : Player) (bs : List Bullet) (wk : ℚ → ℚ → Bool)
    (e : Enemy) (htype : e.etype = GameConfig.SHOOTER) (hle : e.reload_timer ≤ 0) :
    Enemy.update m p bs wk e =
      ({ Enemy.chaseStep m wk p e with reload_timer := 60 - 1 },
       bs ++ [Bullet.new (Enemy.chaseStep m wk p e).x (Enemy.chaseStep m wk p e).y
                (m.dirCos (p.y - e.y) (p.x - e.x) * 2)
                (m.dirSin (p.y - e.y) (p.x - e.x) * 2) "enemy"], p) := by
  have h1 : (Enemy.chaseStep m wk p e).etype = GameConfig.SHOOTER := by
    rw [chaseStep_etype]; exact htype
  have h2 : (Enemy.chaseStep m wk p e).reload_timer ≤ 0 := by
    rw [chaseStep_reload]; exact hle
  unfold Enemy.update
  dsimp only
  rw [if_pos h1, if_pos h2]

/-- While the timer stays positive a shooter never fires: after `n ≤ timer`
ticks the timer has decreased by exactly `n`, the bullet list and player are
unchanged, and the archetype is still shooter. -/
theorem updateN_no_fire (m : MathLib) (wk : ℚ → ℚ → Bool) (p : Player) :
    ∀ (n : ℕ) (e : Enemy) (bs : List Bullet), e.etype = GameConfig.SHOOTER →
      (n : ℤ) ≤ e.reload_timer →
      (Enemy.updateN m wk n p e bs).1.reload_timer = e.reload_timer - n ∧
      (Enemy.updateN m wk n p e bs).1.etype = GameConfig.SHOOTER ∧
      (Enemy.updateN m wk n p e bs).2.1 = bs ∧
      (Enemy.updateN m wk n p e bs).2.2 = p := by
  intro n
  induction n with
  | zero =>
    intro e bs htype hle
    exact ⟨by simp [Enemy.updateN], by simpa [Enemy.updateN] using htype, rfl, rfl⟩
  | succ n ih =>
    intro e bs htype hle
    have hpos : 0 < e.reload_timer := by push_cast at hle; omega
    unfold Enemy.updateN
    rw [shooter_no_fire m p bs wk e htype hpos]
    dsimp only
    have htype2 : ({ Enemy.chaseStep m wk p e with
        reload_timer := e.reload_timer - 1 } : Enemy).etype = GameConfig.SHOOTER := by
      show (Enemy.chaseStep m wk p e).etype = GameConfig.SHOOTER
      rw [chaseStep_etype]; exact htype
    have hle2 : (n : ℤ) ≤ ({ Enemy.chaseStep m wk p e with
        reload_timer := e.reload_timer - 1 } : Enemy).reload_timer := by
      show (n : ℤ) ≤ e.reload_timer - 1
      push_cast at hle
      omega
    obtain ⟨ha, hb, hc, hd⟩ := ih _ _ htype2 hle2
    refine ⟨?_, hb, hc, hd⟩
    rw [ha]
    show e.reload_timer - 1 - n = e.reload_timer - (n + 1 : ℕ)
    push_cast
    ring

/-- Unrolling `Enemy.updateN` from the back: `n + 1` ticks are `n` ticks followed
by one `Enemy.update`. -/
theorem updateN_succ_last (m : MathLib) (wk : ℚ → ℚ → Bool) :
    ∀ (n : ℕ) (p : Player) (e : Enemy) (bs : List Bullet),
      Enemy.updateN m wk (n + 1) p e bs =
        Enemy.update m (Enemy.updateN m wk n p e bs).2.2 (Enemy.updateN m wk n p e bs).2.1
          wk (Enemy.updateN m wk n p e bs).1 := by
  intro n
  induction n with
  | zero => intro p e bs; rfl
  | succ n ih =>
    intro p e bs
    have h1 : Enemy.updateN m wk (n + 1 + 1) p e bs =
        Enemy.updateN m wk (n + 1) (Enemy.update m p bs wk e).2.2
          (Enemy.update m p bs wk e).1 (Enemy.update m p bs wk e).2.1 := rfl
    have h2 : Enemy.updateN m wk (n + 1) p e bs =
        Enemy.updateN m wk n (Enemy.update m p bs wk e).2.2
          (Enemy.update m p bs wk e).1 (Enemy.update m p bs wk e).2.1 := rfl
    rw [h1, ih, h2]

/-- C6: a shooter starting with fire timer 60 (its `__init__` value), updated once
per tick against a fixed player and never reset externally, spawns no bullet
during ticks 0..59 (after `n ≤ 60` ticks the timer is exactly `60 - n` and the
bullet list is unchanged); the tick at index 60 — the tick at which the timer has
reached 0 — appends exactly one bullet, owned by the enemy; and any shooter whose
timer is `≤ 0` fires exactly one enemy-owned bullet that tick, aimed along
`atan2` of the vector to the player, with the timer reset to 60 and then
decremented by the unconditional end-of-tick decrement. -/
theorem shooter_fire_schedule (m : MathLib) (wk : ℚ → ℚ → Bool) (p : Player) (e : Enemy)
    (bs : List Bullet) (htype : e.etype = GameConfig.SHOOTER) (h60 : e.reload_timer = 60) :
    (∀ n : ℕ, n ≤ 60 →
      (Enemy.updateN m wk n p e bs).1.reload_timer = 60 - (n : ℤ) ∧
      (Enemy.updateN m wk n p e bs).2.1 = bs) ∧
    (∃ b : Bullet, (Enemy.updateN m wk 61 p e bs).2.1 = bs ++ [b] ∧ b.owner = "enemy") ∧
    (∀ (p1 : Player) (bs1 : List Bullet) (e1 : Enemy), e1.etype = GameConfig.SHOOTER →
      e1.reload_timer ≤ 0 →
      Enemy.update m p1 bs1 wk e1 =
        ({ Enemy.chaseStep m wk p1 e1 with reload_timer := 60 - 1 },
         bs1 ++ [Bullet.new (Enemy.chaseStep m wk p1 e1).x (Enemy.chaseStep m wk p1 e1).y
                   (m.dirCos (p1.y - e1.y) (p1.x - e1.x) * 2)
                   (m.dirSin (p1.y - e1.y) (p1.x - e1.x) * 2) "enemy"], p1)) := by
  refine ⟨?_, ?_, ?_⟩
  · intro n hn
    obtain ⟨ha, _, hc, _⟩ := updateN_no_fire m wk p n e bs htype
      (by rw [h60]; exact_mod_cast hn)
    exact ⟨by rw [ha, h60], hc⟩
  · obtain ⟨ha, hb, hc, hd⟩ := updateN_no_fire m wk p 60 e bs htype
      (by rw [h60]; norm_num)
    rw [show (61 : ℕ) = 60 + 1 from rfl, updateN_succ_last m wk 60 p e bs, hd, hc]
    rw [shooter_fire m p bs wk _ hb (by rw [ha, h60]; norm_num)]
    exact ⟨_, rfl, rfl⟩
  · intro p1 bs1 e1 ht1 hle1
    exact shooter_fire m p1 bs1 wk e1 ht1 hle1

/-- A freshly constructed shooter (`reload_timer = 60`). -/
def shooterW : Enemy := Enemy.new 0 0 GameConfig.SHOOTER

/-- Witness for `shooter_fire_schedule`: after 60 ticks the concrete shooter's
timer is 0 and no bullet has spawned; the 61st call (tick index 60) appends one
enemy-owned bullet. -/
theorem shooter_fire_schedule_witness :
    ((Enemy.updateN mlibZero wkTrue 60 (Player.init 0 0) shooterW []).1.reload_timer
        = 60 - ((60 : ℕ) : ℤ) ∧
     (Enemy.updateN mlibZero wkTrue 60 (Player.init 0 0) shooterW []).2.1 = []) ∧
    (∃ b : Bullet, (Enemy.updateN mlibZero wkTrue 61 (Player.init 0 0) shooterW []).2.1
        = [] ++ [b] ∧ b.owner = "enemy") :=
  ⟨(shooter_fire_schedule mlibZero wkTrue (Player.init 0 0) shooterW [] rfl rfl).1 60
     (by decide),
   (shooter_fire_schedule mlibZero wkTrue (Player.init 0 0) shooterW [] rfl rfl).2.1⟩

/-- `Enemy.update` never modifies the player it is given. -/
theorem enemy_update_player (m : MathLib) (p : Player) (bs : List Bullet)
    (wk : ℚ → ℚ → Bool) (e : Enemy) : (Enemy.update m p bs wk e).2.2 = p := by
  unfold Enemy.update
  dsimp only
  split_ifs <;> simp

/-- `Enemy.update` only ever appends to the shared bullet list. -/
theorem enemy_update_bullets (m : MathLib) (p : Player) (bs : List Bullet)
    (wk : ℚ → ℚ → Bool) (e : Enemy) :
    ∃ t, (Enemy.update m p bs wk e).2.1 = bs ++ t := by
  unfold Enemy.update
  dsimp only
  split_ifs <;> first
    | exact ⟨[_], rfl⟩
    | exact ⟨[], (List.append_nil _).symm⟩

/-- The enemy loop never modifies the player. -/
theorem updateEnemies_player (m : MathLib) (wk : ℚ → ℚ → Bool) :
    ∀ (es : List Enemy) (bs : List Bullet) (p : Player),
      (updateEnemies m wk es bs p).2.2 = p := by
  intro es
  induction es with
  | nil => intro bs p; rfl
  | cons a l ih =>
    intro bs p
    unfold updateEnemies
    dsimp only
    rw [ih, enemy_update_player]

/-- The enemy loop only ever appends to the shared bullet list. -/
theorem updateEnemies_bullets (m : MathLib) (wk : ℚ → ℚ → Bool) :
    ∀ (es : List Enemy) (bs : List Bullet) (p : Player),
      ∃ t, (updateEnemies m wk es bs p).2.1 = bs ++ t := by
  intro es
  induction es with
  | nil => intro bs p; exact ⟨[], (List.append_nil _).symm⟩
  | cons a l ih =>
    intro bs p
    unfold updateEnemies
    dsimp only
    obtain ⟨t1, ht1⟩ := enemy_update_bullets m p bs wk a
    obtain ⟨t2, ht2⟩ := ih (Enemy.update m p bs wk a).2.1 (Enemy.update m p bs wk a).2.2
    exact ⟨t1 ++ t2, by rw [ht2, ht1, List.append_assoc]⟩

/-- The bullet fired by a timer-expired shooter anywhere in the enemy loop ends
up in the loop's final bullet list, whatever the enemy's hp. -/
theorem dead_shooter_bullet_mem (m : MathLib) (wk : ℚ → ℚ → Bool) (p : Player) (e : Enemy)
    (htype : e.etype = GameConfig.SHOOTER) (htimer : e.reload_timer ≤ 0) :
    ∀ (l1 l2 : List Enemy) (bs : List Bullet),
      Bullet.new (Enemy.chaseStep m wk p e).x (Enemy.chaseStep m wk p e).y
        (m.dirCos (p.y - e.y) (p.x - e.x) * 2) (m.dirSin (p.y - e.y) (p.x - e.x) * 2)
        "enemy" ∈ (updateEnemies m wk (l1 ++ e :: l2) bs p).2.1 := by
  intro l1
  induction l1 with
  | nil =>
    intro l2 bs
    show _ ∈ (updateEnemies m wk (e :: l2) bs p).2.1
    unfold updateEnemies
    dsimp only
    rw [shooter_fire m p bs wk e htype htimer]
    dsimp only
    obtain ⟨t, ht⟩ := updateEnemies_bullets m wk l2
      (bs ++ [Bullet.new (Enemy.chaseStep m wk p e).x (Enemy.chaseStep m wk p e).y
        (m.dirCos (p.y - e.y) (p.x - e.x) * 2) (m.dirSin (p.y - e.y) (p.x - e.x) * 2)
        "enemy"]) p
    rw [ht]
    simp
  | cons a l ih =>
    intro l2 bs
    show _ ∈ (updateEnemies m wk (a :: (l ++ e :: l2)) bs p).2.1
    unfold updateEnemies
    dsimp only
    rw [enemy_update_player]
    exact ih l2 (Enemy.update m p bs wk a).2.1

/-- Every enemy kept by the end-of-tick rebuild is alive — dead enemies are
removed only then. -/
theorem enemiesPhase_alive (m : MathLib) (wk : ℚ → ℚ → Bool) (es : List Enemy)
    (bs : List Bullet) (p : Player) :
    ∀ e2, e2 ∈ (enemiesPhase m wk es bs p).1 → e2.is_alive = true := by
  intro e2 h
  unfold enemiesPhase at h
  dsimp only at h
  exact (List.mem_filter.mp h).2

/-- C10: an enemy whose hp already reached 0 (e.g. by a bullet hit earlier in the
tick) still executes its full `Enemy.update` before the end-of-tick removal: a
dead shooter with expired timer still moves toward the player (its bullet is
spawned at the post-move position) and still appends exactly one enemy-owned
bullet, which survives into the phase's final bullet list; the dead enemy itself
is removed only by the end-of-tick rebuild, which keeps exactly the living
enemies. -/
theorem dead_enemy_full_update (m : MathLib) (wk : ℚ → ℚ → Bool) (p : Player)
    (bs : List Bullet) (l1 l2 : List Enemy) (e : Enemy)
    (hdead : e.hp ≤ 0) (htype : e.etype = GameConfig.SHOOTER)
    (htimer : e.reload_timer ≤ 0) :
    Enemy.update m p bs wk e =
      ({ Enemy.chaseStep m wk p e with reload_timer := 60 - 1 },
       bs ++ [Bullet.new (Enemy.chaseStep m wk p e).x (Enemy.chaseStep m wk p e).y
                (m.dirCos (p.y - e.y) (p.x - e.x) * 2)
                (m.dirSin (p.y - e.y) (p.x - e.x) * 2) "enemy"], p) ∧
    (Enemy.update m p bs wk e).1.is_alive = false ∧
    Bullet.new (Enemy.chaseStep m wk p e).x (Enemy.chaseStep m wk p e).y
      (m.dirCos (p.y - e.y) (p.x - e.x) * 2) (m.dirSin (p.y - e.y) (p.x - e.x) * 2)
      "enemy" ∈ (enemiesPhase m wk (l1 ++ e :: l2) bs p).2.1 ∧
    (∀ e2, e2 ∈ (enemiesPhase m wk (l1 ++ e :: l2) bs p).1 → e2.is_alive = true) := by
  refine ⟨shooter_fire m p bs wk e htype htimer, ?_, ?_, enemiesPhase_alive m wk _ bs p⟩
  · rw [shooter_fire m p bs wk e htype htimer]
    show ({ Enemy.chaseStep m wk p e with reload_timer := 60 - 1 } : Enemy).is_alive = false
    unfold Enemy.is_alive
    have : ({ Enemy.chaseStep m wk p e with reload_timer := 60 - 1 } : Enemy).hp = e.hp := by
      show (Enemy.chaseStep m wk p e).hp = e.hp
      exact chaseStep_hp m wk p e
    rw [this]
    simpa using hdead
  · show _ ∈ (updateEnemies m wk (l1 ++ e :: l2) bs p).2.1
    exact dead_shooter_bullet_mem m wk p e htype htimer l1 l2 bs

/-- A shooter already dead (hp 0) with an expired fire timer. -/
def deadShooter : Enemy :=
  { Enemy.new 0 0 GameConfig.SHOOTER with hp := 0, reload_timer := 0 }

/-- Witness for `dead_enemy_full_update` at a concrete configuration. -/
theorem dead_enemy_full_update_witness :
    Enemy.update mlibZero (Player.init 0 0) [] wkTrue deadShooter =
      ({ Enemy.chaseStep mlibZero wkTrue (Player.init 0 0) deadShooter with
           reload_timer := 60 - 1 },
       [] ++ [Bullet.new (Enemy.chaseStep mlibZero wkTrue (Player.init 0 0) deadShooter).x
                (Enemy.chaseStep mlibZero wkTrue (Player.init 0 0) deadShooter).y
                (mlibZero.dirCos ((Player.init 0 0).y - deadShooter.y)
                  ((Player.init 0 0).x - deadShooter.x) * 2)
                (mlibZero.dirSin ((Player.init 0 0).y - deadShooter.y)
                  ((Player.init 0 0).x - deadShooter.x) * 2) "enemy"],
       Player.init 0 0) ∧
    (Enemy.update mlibZero (Player.init 0 0) [] wkTrue deadShooter).1.is_alive = false ∧
    Bullet.new (Enemy.chaseStep mlibZero wkTrue (Player.init 0 0) deadShooter).x
      (Enemy.chaseStep mlibZero wkTrue (Player.init 0 0) deadShooter).y
      (mlibZero.dirCos ((Player.init 0 0).y - deadShooter.y)
        ((Player.init 0 0).x - deadShooter.x) * 2)
      (mlibZero.dirSin ((Player.init 0 0).y - deadShooter.y)
        ((Player.init 0 0).x - deadShooter.x) * 2) "enemy"
      ∈ (enemiesPhase mlibZero wkTrue ([] ++ deadShooter :: []) [] (Player.init 0 0)).2.1 ∧
    (∀ e2, e2 ∈ (enemiesPhase mlibZero wkTrue ([] ++ deadShooter :: []) [] (Player.init 0 0)).1 →
      e2.is_alive = true) :=
  dead_enemy_full_update mlibZero wkTrue (Player.init 0 0) [] [] [] deadShooter
    (by decide) rfl (by decide)
